import Mathlib

/-!
Shallow embedding of the organisationsnummer Rust library (src/lib.rs).

Strings are modelled as `List Char`; Rust's byte-indexed string slices
are modelled by `takeBytes`/`dropBytes`, which fail exactly when the
Rust slice would panic (index past the end or not on a UTF-8 character
boundary).  The regex crate's `\d` is the Unicode decimal-digit class,
wider than the ASCII range accepted by `char::to_digit(10)` and
`str::parse::<u32>`; see `isNdChar`.  Rust's fallible operations are
modelled with `Except` and `Option`.  The `u32` checksum accumulator
followed by the `as u8` cast in `luhn` is modelled as a `Nat` sum
reduced `% 256` (since `256 ∣ 2^32`, `(S % 2^32) % 256 = S % 256`, so
no separate `% 2^32` step is needed).
-/

/-- Rust `OrganisationsnummerError` (src/lib.rs:14). -/
inductive OrganisationsnummerError where
  | InvalidInput
deriving DecidableEq, Repr

deriving instance DecidableEq for Except

/-- Output of the opaque personal-identity-number collaborator: it can
produce a long formatted representation, a short formatted representation,
and an age in years (spec, section 1). -/
structure Pnr where
  longFmt : List Char
  shortFmt : List Char
  age : Nat
deriving DecidableEq, Repr

/-- Rust `Organisationsnummer` (src/lib.rs:30). -/
structure Organisationsnummer where
  personnummer : Option Pnr
  number : List Char
deriving DecidableEq, Repr

/-- Rust `FormattedOrganisationsnummer` (src/lib.rs:37). -/
structure FormattedOrganisationsnummer where
  long : List Char
  short : List Char
deriving DecidableEq, Repr

/-- ASCII decimal digit test: models the regex digit class and the
domain of Rust `char::to_digit(10)`. -/
def isDigitChar (c : Char) : Bool :=
  48 ≤ c.toNat && c.toNat ≤ 57

/-- Rust `c.to_digit(10).unwrap_or(0)` (src/lib.rs:215). -/
def charDigit (c : Char) : Nat :=
  if isDigitChar c then c.toNat - 48 else 0

/-- The regex crate's `\d` with its default Unicode semantics is the
class `Nd` of decimal digits; `ORG_REGEX` (src/lib.rs:10) therefore also
matches non-ASCII digits.  `Nd` is modelled here by the two blocks the
development exercises: the ASCII digits and the Arabic-Indic digits
U+0660 to U+0669.  The further `Nd` blocks behave like the Arabic-Indic
one — multi-byte in UTF-8 and rejected by `char::to_digit(10)` and
`str::parse::<u32>` — and no theorem below asserts that any input fails
to match, so omitting them narrows nothing a statement relies on. -/
def isNdChar (c : Char) : Bool :=
  isDigitChar c || (1632 ≤ c.toNat && c.toNat ≤ 1641)

/-- The separator class `[-+]` of `ORG_REGEX` (src/lib.rs:10). -/
def isSepChar (c : Char) : Bool :=
  c == '-' || c == '+'

/-- The decimal value of an all-ASCII-digit character list. -/
def natOfDigits (cs : List Char) : Nat :=
  cs.foldl (fun acc c => acc * 10 + charDigit c) 0

/-- Rust `match_to_u32` (src/lib.rs:62): `m.as_str().parse::<u32>()
.unwrap_or(0)`.  The captures fed to it are nonempty and at most three
characters long, so overflow is impossible, but `parse::<u32>` fails —
and the fallback 0 is taken — whenever any captured character is not an
ASCII digit (a non-ASCII `Nd` digit, say). -/
def matchToU32 (cs : List Char) : Nat :=
  if cs.all isDigitChar then natOfDigits cs else 0

/-- The UTF-8 encoding width of a character in bytes. -/
def utf8Len (c : Char) : Nat :=
  if c.toNat < 128 then 1
  else if c.toNat < 2048 then 2
  else if c.toNat < 65536 then 3
  else 4

/-- Rust byte slice `s[..n]`: `some` with the characters of the first
`n` bytes when `n` is within bounds and on a character boundary, `none`
(a panic) otherwise. -/
def takeBytes : List Char → Nat → Option (List Char)
  | _, 0 => some []
  | [], _ + 1 => none
  | c :: cs, n + 1 =>
      if utf8Len c ≤ n + 1 then
        (takeBytes cs (n + 1 - utf8Len c)).map (fun t => c :: t)
      else none

/-- Rust byte slice `s[n..]`: `some` with the characters after the first
`n` bytes when `n` is within bounds and on a character boundary, `none`
(a panic) otherwise. -/
def dropBytes : List Char → Nat → Option (List Char)
  | cs, 0 => some cs
  | [], _ + 1 => none
  | c :: cs, n + 1 =>
      if utf8Len c ≤ n + 1 then dropBytes cs (n + 1 - utf8Len c)
      else none

/-- Rust `String::replace("-", "")`: removes every dash (src/lib.rs:70). -/
def removeDashes (cs : List Char) : List Char :=
  cs.filter (fun c => c != '-')

/-- The capture groups of `ORG_REGEX =
^(\d\x7b2\x7d)\x7b0,1\x7d(\d\x7b2\x7d)(\d\x7b2\x7d)(\d\x7b2\x7d)([-+]?)?(\d\x7b3\x7d)(\d)$`
(src/lib.rs:10).  Group 1 is the optional two-digit century head. -/
structure OrgCaps where
  g1 : Option (List Char)
  g2 : List Char
  g3 : List Char
  g4 : List Char
  g5 : List Char
  g6 : List Char
  g7 : List Char
deriving DecidableEq, Repr

/-- `ORG_REGEX.captures` (src/lib.rs:58).  The regex is anchored on both
sides and every alternative has a fixed width, so the total length of a
match is 10 (no head group, no separator), 11 (separator only),
12 (head group only) or 13 (head group and separator), and the
decomposition is decided by the length alone. -/
def orgCaptures : List Char → Option OrgCaps
  | [a, b, c, d, e, f, g, h, i, j] =>
      if [a, b, c, d, e, f, g, h, i, j].all isNdChar then
        some ⟨none, [a, b], [c, d], [e, f], [], [g, h, i], [j]⟩
      else none
  | [a, b, c, d, e, f, s5, g, h, i, j] =>
      if [a, b, c, d, e, f, g, h, i, j].all isNdChar && isSepChar s5 then
        some ⟨none, [a, b], [c, d], [e, f], [s5], [g, h, i], [j]⟩
      else none
  | [p1, p2, a, b, c, d, e, f, g, h, i, j] =>
      if [p1, p2, a, b, c, d, e, f, g, h, i, j].all isNdChar then
        some ⟨some [p1, p2], [a, b], [c, d], [e, f], [], [g, h, i], [j]⟩
      else none
  | [p1, p2, a, b, c, d, e, f, s5, g, h, i, j] =>
      if [p1, p2, a, b, c, d, e, f, g, h, i, j].all isNdChar && isSepChar s5 then
        some ⟨some [p1, p2], [a, b], [c, d], [e, f], [s5], [g, h, i], [j]⟩
      else none
  | _ => none

/-- The checksum fold of `luhn` (src/lib.rs:213), with the running index
made explicit: `idx` is the zero-based position of the head of the list. -/
def luhnSumAux : Nat → List Char → Nat
  | _, [] => 0
  | idx, c :: cs =>
      let v := charDigit c
      let value := if idx % 2 = 0 then v * 2 else v
      (if value > 9 then value - 9 else value) + luhnSumAux (idx + 1) cs

/-- Rust `luhn` (src/lib.rs:212).  `checksum as u8` truncates the `u32`
sum modulo 256 before the final `% 10` comparison. -/
def luhn (cs : List Char) : Bool :=
  (10 - luhnSumAux 0 cs % 256 % 10) % 10 == 0

/-- Rust `TryFrom<&str> for Organisationsnummer` (src/lib.rs:57). -/
def Organisationsnummer.tryFrom (org : List Char) :
    Except OrganisationsnummerError Organisationsnummer :=
  match orgCaptures org with
  | none => .error .InvalidInput
  | some caps =>
      let prefVal : Nat :=
        match caps.g1 with
        | some m => matchToU32 m
        | none => 0
      let number0 := removeDashes org
      -- May only be headed by 16 (src/lib.rs:72).  The byte slice
      -- `number[2..]` (src/lib.rs:77) is reached only when the parsed
      -- head is nonzero, which forces its two characters — the first two
      -- of `number` — to be one-byte ASCII digits, so byte index 2 is a
      -- character boundary and the slice equals dropping two characters.
      let step : Except OrganisationsnummerError (List Char) :=
        if prefVal ≠ 0 then
          if prefVal ≠ 16 then .error .InvalidInput
          else .ok (number0.drop 2)
        else .ok number0
      match step with
      | .error e => .error e
      | .ok number =>
          -- Third group must be at least 20 (src/lib.rs:83).
          if matchToU32 caps.g3 < 20 then .error .InvalidInput
          -- Second group may not start with a leading 0 (src/lib.rs:90).
          else if matchToU32 caps.g2 < 10 then .error .InvalidInput
          -- Luhn checksum must be valid (src/lib.rs:95).
          else if luhn number then .ok ⟨none, number⟩
          else .error .InvalidInput

/-- Rust `Organisationsnummer::new` (src/lib.rs:109), parameterised by the
opaque personal-identity-number collaborator `pnrNew`. -/
def Organisationsnummer.new (pnrNew : List Char → Option Pnr)
    (org : List Char) : Except OrganisationsnummerError Organisationsnummer :=
  match pnrNew org with
  | some p => .ok ⟨some p, removeDashes org⟩
  | none => Organisationsnummer.tryFrom org

/-- Rust `Organisationsnummer::parse` (src/lib.rs:120): same as `new`. -/
def Organisationsnummer.parse (pnrNew : List Char → Option Pnr)
    (org : List Char) : Except OrganisationsnummerError Organisationsnummer :=
  Organisationsnummer.new pnrNew org

/-- Rust `Organisationsnummer::valid` (src/lib.rs:125). -/
def Organisationsnummer.valid (_ : Organisationsnummer) : Bool :=
  true

/-- Rust `Organisationsnummer::format` (src/lib.rs:130).  `none` models a
panic of one of the byte slices `l[2..]`, `s[0..6]`, `s[7..]` (delegate
branch) or `number[..6]`, `number[6..]` (plain branch): out of bounds or
not on a UTF-8 character boundary. -/
def Organisationsnummer.format (o : Organisationsnummer) :
    Option FormattedOrganisationsnummer :=
  match o.personnummer with
  | some p =>
      let s := p.shortFmt
      let l := if 100 ≤ p.age then
          p.longFmt.map (fun c => if c = '-' then '+' else c)
        else p.longFmt
      match dropBytes l 2, takeBytes s 6, dropBytes s 7 with
      | some ltail, some shead, some stail => some ⟨ltail, shead ++ stail⟩
      | _, _, _ => none
  | none =>
      match takeBytes o.number 6, dropBytes o.number 6 with
      | some nhead, some ntail => some ⟨nhead ++ '-' :: ntail, o.number⟩
      | _, _ => none

/-- The label table of `Organisationsnummer::type` (src/lib.rs:168).  The
digit-8 arm of the source carries a stray leading apostrophe (character 39)
inside its string literal (src/lib.rs:178), reproduced here verbatim. -/
def typeLabel (first : Nat) : String :=
  match first with
  | 0 => "Enskild firma"
  | 1 => "Dödsbon"
  | 2 => "Stat, landsting, kommun eller församling"
  | 3 => "Utländska företag som bedriver näringsverksamhet eller äger fastigheter i Sverige"
  | 5 => "Aktiebolag"
  | 6 => "Enkelt bolag"
  | 7 => "Ekonomisk förening eller bostadsrättsförening"
  | 8 => String.mk (Char.ofNat 39 :: ("Ideella förening och stiftelse").data)
  | 9 => "Handelsbolag, kommanditbolag och enkelt bolag"
  | _ => "Okänt"

/-- Rust `Organisationsnummer::type` (src/lib.rs:156).  `none` models the
panic of `chars().next().unwrap()` on an empty stored number. -/
def Organisationsnummer.orgType (o : Organisationsnummer) : Option String :=
  match o.personnummer with
  | some _ => some (typeLabel 0)
  | none =>
      match o.number with
      | [] => none
      | c :: _ => some (typeLabel (charDigit c))

/-- Rust `Organisationsnummer::vat_number` (src/lib.rs:187).  `none` models
the panic of the byte slice `long()[2..13]` on the collaborator's long
format: out of bounds or an end not on a character boundary. -/
def Organisationsnummer.vatNumber (o : Organisationsnummer) :
    Option (List Char) :=
  match o.personnummer with
  | some p =>
      match dropBytes p.longFmt 2 with
      | some ltail =>
          match takeBytes ltail 11 with
          | some mid =>
              some ("SE".data ++ removeDashes mid ++ "01".data)
          | none => none
      | none => none
  | none => some ("SE".data ++ o.number ++ "01".data)

/-- Rust `Organisationsnummer::is_personnummer` (src/lib.rs:202). -/
def Organisationsnummer.isPersonnummer (o : Organisationsnummer) : Bool :=
  o.personnummer.isSome

/-- The Luhn sum exactly as the spec words it (spec, section 4.2): digits
taken left to right, doubled at even zero-based positions, a doubled value
above 9 reduced by subtracting 9, odd-position digits taken as is.  Kept
separate from `luhnSumAux` so the code can be compared against the
specification text. -/
def luhnSpecSumAux : Nat → List Char → Nat
  | _, [] => 0
  | idx, c :: cs =>
      let d := c.toNat - 48
      (if idx % 2 = 0 then (if d * 2 > 9 then d * 2 - 9 else d * 2) else d)
        + luhnSpecSumAux (idx + 1) cs

/-- The spec-side Luhn sum of a whole string. -/
def luhnSpecSum (cs : List Char) : Nat :=
  luhnSpecSumAux 0 cs

/-- The VAT shape demanded by the spec (spec, sections 4.6 and 8):
`SE`, then exactly ten ASCII digits, then `01`. -/
def isVatShape (cs : List Char) : Bool :=
  cs.length == 14 && cs.take 2 == "SE".data
    && ((cs.drop 2).take 10).all isDigitChar && cs.drop 12 == "01".data

/-- C1: on the structural fallback the stored number is claimed to be
exactly 10 ASCII digits with any separator and legal head removed; but on
input `556016+3000` the fallback succeeds and stores all 11 characters,
the `+` separator included, because only dashes are removed
(src/lib.rs:70). -/
theorem c1_stored_number_not_ten_digits :
    Organisationsnummer.tryFrom ("556016+3000").data =
      .ok ⟨none, ("556016+3000").data⟩ ∧
    ¬ ((("556016+3000").data).length = 10 ∧
       (("556016+3000").data).all isDigitChar = true) := by
  decide

/-- C2: the claim says any present two-character head other than `16` is
rejected; but a `00` head parses to the numeric value 0, the sentinel the
code uses for "no head present" (src/lib.rs:65), so `parse` accepts
`00` + N whenever it accepts N, storing all 12 characters. -/
theorem c2_double_zero_head_accepted (pnrNew : List Char → Option Pnr)
    (h1 : pnrNew ("005560160680").data = none)
    (h2 : pnrNew ("5560160680").data = none) :
    Organisationsnummer.parse pnrNew ("005560160680").data =
      .ok ⟨none, ("005560160680").data⟩ ∧
    Organisationsnummer.parse pnrNew ("5560160680").data =
      .ok ⟨none, ("5560160680").data⟩ := by
  refine ⟨?_, ?_⟩ <;>
    simp only [Organisationsnummer.parse, Organisationsnummer.new, h1, h2] <;>
    decide

/-- Witness for `c2_double_zero_head_accepted` with a collaborator that
rejects every input. -/
theorem c2_double_zero_head_accepted_witness :
    Organisationsnummer.parse (fun _ => none) ("005560160680").data =
      .ok ⟨none, ("005560160680").data⟩ ∧
    Organisationsnummer.parse (fun _ => none) ("5560160680").data =
      .ok ⟨none, ("5560160680").data⟩ :=
  c2_double_zero_head_accepted (fun _ => none) rfl rfl

/-- C3: the claim says an accepted separator is stripped before the
normalized number is formed; but only dashes are removed (src/lib.rs:70),
so on input `556016+3000` the `+` separator survives into the string that
is Luhn-checked and stored. -/
theorem c3_plus_separator_not_stripped :
    Organisationsnummer.tryFrom ("556016+3000").data =
      .ok ⟨none, ("556016+3000").data⟩ ∧
    '+' ∈ ("556016+3000").data ∧
    (("556016+3000").data).all isDigitChar = false := by
  decide

/-- C4: the claim says `vat_number()` always matches `SE` + 10 digits +
`01`; but the instance parsed from `556016+3000` stores the `+`, so its
VAT number is `SE556016+300001`, which does not have that shape. -/
theorem c4_vat_shape_violated :
    (Organisationsnummer.tryFrom ("556016+3000").data).map
        Organisationsnummer.vatNumber =
      .ok (some ("SE556016+300001").data) ∧
    isVatShape (("SE556016+300001").data) = false := by
  decide

/-- C7: the claim says digit 8 yields the label `Ideella förening och
stiftelse`; the source's digit-8 string literal carries a stray leading
apostrophe (src/lib.rs:178), so `type()` returns a different string.  The
other rows of the table behave as claimed: a personnummer-backed instance
yields `Enskild firma`, digit 5 yields `Aktiebolag`, and digit 4 falls to
the default `Okänt`. -/
theorem c7_digit_eight_label_has_stray_apostrophe :
    (Organisationsnummer.tryFrom ("8560160684").data).map
        Organisationsnummer.orgType =
      .ok (some (String.mk (Char.ofNat 39 ::
        ("Ideella förening och stiftelse").data))) ∧
    String.mk (Char.ofNat 39 :: ("Ideella förening och stiftelse").data) ≠
      "Ideella förening och stiftelse" ∧
    Organisationsnummer.orgType ⟨some ⟨[], [], 0⟩, []⟩ =
      some "Enskild firma" ∧
    (Organisationsnummer.tryFrom ("5560160680").data).map
        Organisationsnummer.orgType = .ok (some "Aktiebolag") ∧
    (Organisationsnummer.tryFrom ("4560160683").data).map
        Organisationsnummer.orgType = .ok (some "Okänt") := by
  decide

theorem isDigitChar_bounds (c : Char) (h : isDigitChar c = true) :
    48 ≤ c.toNat ∧ c.toNat ≤ 57 := by
  simpa [isDigitChar, Bool.and_eq_true, decide_eq_true_eq] using h

theorem digit_ne_dash (c : Char) (h : isDigitChar c = true) :
    (c != '-') = true := by
  have hb := isDigitChar_bounds c h
  simp only [bne_iff_ne, ne_eq]
  rintro rfl
  exact absurd hb (by decide)

theorem removeDashes_of_digits (cs : List Char)
    (h : cs.all isDigitChar = true) : removeDashes cs = cs := by
  rw [removeDashes, List.filter_eq_self]
  intro c hc
  exact digit_ne_dash c (List.all_eq_true.1 h c hc)

theorem luhnSumAux_eq_spec (cs : List Char) :
    ∀ i, cs.all isDigitChar = true →
      luhnSumAux i cs = luhnSpecSumAux i cs := by
  induction cs with
  | nil => intro i _; rfl
  | cons c cs ih =>
      intro i h
      rw [List.all_cons, Bool.and_eq_true] at h
      obtain ⟨hc, hcs⟩ := h
      have hb := isDigitChar_bounds c hc
      have hd : charDigit c = c.toNat - 48 := by simp [charDigit, hc]
      simp only [luhnSumAux, luhnSpecSumAux, hd, ih _ hcs]
      by_cases he : i % 2 = 0
      · simp [he]
      · simp only [he, if_false]
        rw [if_neg (by omega)]

/-- C5 counterexample: a 29-digit string whose spec-side Luhn sum is 260.
The spec formula `(10 - sum % 10) % 10 = 0` declares it valid, but the
code truncates the `u32` checksum with `as u8` (src/lib.rs:222), reading
`260` as `4`, and rejects it. -/
theorem c5_u8_truncation_counterexample :
    (("99999999999999999999999999994").data).all isDigitChar = true ∧
    (10 - luhnSpecSum (("99999999999999999999999999994").data) % 10) % 10
      = 0 ∧
    luhn (("99999999999999999999999999994").data) = false := by
  decide

/-- C5 amended: for every digit string the code's `luhn` declares validity
exactly when `(10 - ((S mod 256) mod 10)) mod 10 = 0`, where `S` is the
spec-worded Luhn sum — identical to the claim except that the `u32`
checksum is truncated to `u8` (reduced modulo 256) before the final
comparison (src/lib.rs:222). -/
theorem c5_luhn_matches_spec_sum_mod_256 (cs : List Char)
    (h : cs.all isDigitChar = true) :
    luhn cs = true ↔ (10 - luhnSpecSum cs % 256 % 10) % 10 = 0 := by
  rw [luhn, luhnSpecSum, luhnSumAux_eq_spec cs 0 h]
  exact beq_iff_eq

/-- Witness for `c5_luhn_matches_spec_sum_mod_256` at a concrete valid
organization number. -/
theorem c5_luhn_matches_spec_sum_mod_256_witness :
    (("5560160680").data).all isDigitChar = true ∧
    (luhn ("5560160680").data = true ↔
      (10 - luhnSpecSum (("5560160680").data) % 256 % 10) % 10 = 0) :=
  ⟨by decide, c5_luhn_matches_spec_sum_mod_256 (("5560160680").data)
    (by decide)⟩

/-- C8: whenever the collaborator accepts the input, `parse` wraps its
result immediately — the structural matcher and the Luhn verifier are
bypassed, as the result only depends on the collaborator's output — and
the instance reports `is_personnummer() = true` and
`type() = "Enskild firma"`. -/
theorem c8_personnummer_precedence (pnrNew : List Char → Option Pnr)
    (org : List Char) (p : Pnr) (h : pnrNew org = some p) :
    Organisationsnummer.parse pnrNew org = .ok ⟨some p, removeDashes org⟩ ∧
    Organisationsnummer.isPersonnummer ⟨some p, removeDashes org⟩ = true ∧
    Organisationsnummer.orgType ⟨some p, removeDashes org⟩ =
      some "Enskild firma" := by
  refine ⟨?_, rfl, rfl⟩
  simp [Organisationsnummer.parse, Organisationsnummer.new, h]

/-- Witness for `c8_personnummer_precedence`: the input `x` is rejected by
the structural matcher, yet an accepting collaborator makes `parse`
succeed with a personnummer-backed instance. -/
theorem c8_personnummer_precedence_witness :
    Organisationsnummer.parse (fun _ => some ⟨[], [], 0⟩) (("x").data) =
      .ok ⟨some ⟨[], [], 0⟩, removeDashes (("x").data)⟩ ∧
    Organisationsnummer.isPersonnummer
      ⟨some ⟨[], [], 0⟩, removeDashes (("x").data)⟩ = true ∧
    Organisationsnummer.orgType
      ⟨some ⟨[], [], 0⟩, removeDashes (("x").data)⟩ =
      some "Enskild firma" :=
  c8_personnummer_precedence (fun _ => some ⟨[], [], 0⟩) (("x").data)
    ⟨[], [], 0⟩ rfl

theorem charDigit_of_not_digit (c : Char) (h : isDigitChar c = false) :
    charDigit c = 0 := by
  simp [charDigit, h]

/-- C9: `luhn` is total over arbitrary character lists by construction,
and every character that is not an ASCII decimal digit contributes 0 to
the checksum: replacing each non-digit character by the digit `0` never
changes the verdict. -/
theorem c9_nondigit_contributes_zero (cs : List Char) :
    luhn cs =
      luhn (cs.map (fun c => if isDigitChar c then c else '0')) := by
  have key : ∀ i ds, luhnSumAux i
      (ds.map (fun c => if isDigitChar c then c else '0')) =
      luhnSumAux i ds := by
    intro i ds
    induction ds generalizing i with
    | nil => rfl
    | cons c ds ih =>
        have hc : charDigit (if isDigitChar c then c else '0')
            = charDigit c := by
          by_cases h : isDigitChar c
          · simp [h]
          · rw [if_neg h, charDigit_of_not_digit c (by simpa using h)]
            decide
        simp only [List.map_cons, luhnSumAux, hc, ih]
  rw [luhn, luhn, key]

theorem ascii_of_digit (c : Char) (h : isDigitChar c = true) :
    c.toNat < 128 := by
  have := isDigitChar_bounds c h
  omega

theorem ndChar_of_digit (c : Char) (h : isDigitChar c = true) :
    isNdChar c = true := by
  simp [isNdChar, h]

theorem all_ndChar_of_digits (cs : List Char)
    (h : cs.all isDigitChar = true) : cs.all isNdChar = true := by
  rw [List.all_eq_true] at h ⊢
  exact fun c hc => ndChar_of_digit c (h c hc)

theorem utf8Len_of_ascii (c : Char) (h : c.toNat < 128) :
    utf8Len c = 1 := by
  simp [utf8Len, h]

theorem takeBytes_ascii (cs : List Char) :
    ∀ n, (∀ c ∈ cs, c.toNat < 128) → n ≤ cs.length →
      takeBytes cs n = some (cs.take n) := by
  induction cs with
  | nil =>
      intro n _ hn
      have : n = 0 := by simpa using hn
      subst this
      rfl
  | cons c cs ih =>
      intro n hall hn
      cases n with
      | zero => rfl
      | succ n =>
          have h1 : utf8Len c = 1 :=
            utf8Len_of_ascii c (hall c (by simp))
          simp only [takeBytes, h1]
          rw [if_pos (by omega), Nat.add_sub_cancel,
            ih n (fun x hx => hall x (List.mem_cons_of_mem _ hx))
              (by simpa using hn)]
          simp

theorem dropBytes_ascii (cs : List Char) :
    ∀ n, (∀ c ∈ cs, c.toNat < 128) → n ≤ cs.length →
      dropBytes cs n = some (cs.drop n) := by
  induction cs with
  | nil =>
      intro n _ hn
      have : n = 0 := by simpa using hn
      subst this
      rfl
  | cons c cs ih =>
      intro n hall hn
      cases n with
      | zero => rfl
      | succ n =>
          have h1 : utf8Len c = 1 :=
            utf8Len_of_ascii c (hall c (by simp))
          simp only [dropBytes, h1]
          rw [if_pos (by omega), Nat.add_sub_cancel,
            ih n (fun x hx => hall x (List.mem_cons_of_mem _ hx))
              (by simpa using hn)]
          simp

/-- C6: any all-digit 10-character input whose Luhn checksum passes, whose
first two-digit group is at least 10 and whose digits 3-4 group is at
least 20, and which the collaborator rejects, parses to a plain instance
storing exactly those digits, with short format equal to the input and
long format equal to the first six digits, a dash, then the last four. -/
theorem c6_valid_ten_digit_roundtrip (pnrNew : List Char → Option Pnr)
    (a b c d e f g h i j : Char)
    (hdig : ([a, b, c, d, e, f, g, h, i, j]).all isDigitChar = true)
    (h2 : 10 ≤ natOfDigits [a, b])
    (h3 : 20 ≤ natOfDigits [c, d])
    (hluhn : luhn [a, b, c, d, e, f, g, h, i, j] = true)
    (hpnr : pnrNew [a, b, c, d, e, f, g, h, i, j] = none) :
    Organisationsnummer.parse pnrNew [a, b, c, d, e, f, g, h, i, j] =
      .ok ⟨none, [a, b, c, d, e, f, g, h, i, j]⟩ ∧
    Organisationsnummer.format ⟨none, [a, b, c, d, e, f, g, h, i, j]⟩ =
      some ⟨[a, b, c, d, e, f] ++ '-' :: [g, h, i, j],
            [a, b, c, d, e, f, g, h, i, j]⟩ := by
  have hrm : removeDashes [a, b, c, d, e, f, g, h, i, j] =
      [a, b, c, d, e, f, g, h, i, j] :=
    removeDashes_of_digits _ hdig
  have hnd : ([a, b, c, d, e, f, g, h, i, j]).all isNdChar = true :=
    all_ndChar_of_digits _ hdig
  have ha := List.all_eq_true.1 hdig a (by simp)
  have hb := List.all_eq_true.1 hdig b (by simp)
  have hc := List.all_eq_true.1 hdig c (by simp)
  have hd := List.all_eq_true.1 hdig d (by simp)
  have hm2 : matchToU32 [a, b] = natOfDigits [a, b] := by
    simp [matchToU32, ha, hb]
  have hm3 : matchToU32 [c, d] = natOfDigits [c, d] := by
    simp [matchToU32, hc, hd]
  have hasc : ∀ x ∈ [a, b, c, d, e, f, g, h, i, j], x.toNat < 128 :=
    fun x hx => ascii_of_digit x (List.all_eq_true.1 hdig x hx)
  constructor
  · simp only [Organisationsnummer.parse, Organisationsnummer.new, hpnr]
    simp [Organisationsnummer.tryFrom, orgCaptures, hnd, hrm, hluhn,
      hm2, hm3, Nat.not_lt.mpr h2, Nat.not_lt.mpr h3]
  · have ht := takeBytes_ascii [a, b, c, d, e, f, g, h, i, j] 6 hasc
      (by simp)
    have hdr := dropBytes_ascii [a, b, c, d, e, f, g, h, i, j] 6 hasc
      (by simp)
    simp [Organisationsnummer.format, ht, hdr]

/-- Witness for `c6_valid_ten_digit_roundtrip` at `5560160680` with a
collaborator that rejects every input. -/
theorem c6_valid_ten_digit_roundtrip_witness :
    (("5560160680").data).all isDigitChar = true ∧
    luhn (("5560160680").data) = true ∧
    Organisationsnummer.parse (fun _ => none) (("5560160680").data) =
      .ok ⟨none, ("5560160680").data⟩ ∧
    Organisationsnummer.format ⟨none, ("5560160680").data⟩ =
      some ⟨("556016-0680").data, ("5560160680").data⟩ := by
  refine ⟨by decide, by decide, ?_, ?_⟩
  · exact (c6_valid_ten_digit_roundtrip (fun _ => none)
      '5' '5' '6' '0' '1' '6' '0' '6' '8' '0'
      (by decide) (by decide) (by decide) (by decide) rfl).1
  · exact (c6_valid_ten_digit_roundtrip (fun _ => none)
      '5' '5' '6' '0' '1' '6' '0' '6' '8' '0'
      (by decide) (by decide) (by decide) (by decide) rfl).2

/-- C10: the claim says `format()` and `type()` never panic on an
instance produced by a successful parse.  The input `59255٥٠٠٠٠` — five
ASCII digits followed by five Arabic-Indic digits, all matched by the
regex's Unicode `\d` — parses successfully (groups 59 and 25 pass, the
Luhn sum is 20 since non-ASCII characters contribute 0) and is stored
verbatim; `format()` then panics, because `&number[..6]` slices at byte
6, which falls inside the two-byte UTF-8 encoding of the character at
index 5.  `type()` is fine on this instance. -/
theorem c10_format_panics_after_successful_parse :
    Organisationsnummer.tryFrom (("59255٥٠٠٠٠").data) =
      .ok ⟨none, ("59255٥٠٠٠٠").data⟩ ∧
    Organisationsnummer.format ⟨none, ("59255٥٠٠٠٠").data⟩ = none ∧
    Organisationsnummer.orgType ⟨none, ("59255٥٠٠٠٠").data⟩ ≠ none := by
  decide
